import Mathlib

/-!
Verification development for the ascoltatori publish/subscribe adapters.

The embedding covers the two adapters present in the repository sources:
the AMQP adapter (AMQPAscoltatore) and the Redis cluster adapter
(RedisClusterAscoltatore).  Each adapter is modelled as a pure state
machine: every public operation maps a state to a new state, a list of
transport-level actions performed, and an optional synchronously raised
JavaScript error.  Shared helpers that live in files of the repository
that are not part of the sources here (the reference counter
subs_counter.js, the abstract base abstract_ascoltatore.js and the local
fan-out trie_ascoltatore.js) are modelled from the specification, as
indicated in their doc comments.
-/

/-- A JavaScript value as it can appear as a message payload: a string, a
binary buffer, a number, a boolean, null or undefined. -/
inductive JsVal where
  | str (s : String)
  | buf (bytes : List Nat)
  | num (n : Int)
  | boolean (b : Bool)
  | null
  | undef
deriving DecidableEq

/-- JavaScript String(v) conversion, as applied by the AMQP adapter before
handing a payload to the exchange. -/
def jsToString : JsVal → String
  | .str s => s
  | .buf bytes => String.mk (bytes.map Char.ofNat)
  | .num n => toString n
  | .boolean true => "true"
  | .boolean false => "false"
  | .null => "null"
  | .undef => "undefined"

/-- A synchronously raised JavaScript error: the closed-condition error
raised by the lifecycle guard, or a TypeError from accessing a property of
an undefined object. -/
inductive JsErr where
  | closed
  | typeErr
deriving DecidableEq

/-- First-match lookup in an association list keyed by strings. -/
def alookup {α : Type} : List (String × α) → String → Option α
  | [], _ => none
  | (k', v) :: rest, k => if k' = k then some v else alookup rest k

/-- Update the first entry with the given key, or append a new entry when
the key is absent (JavaScript object property assignment). -/
def aset {α : Type} : List (String × α) → String → α → List (String × α)
  | [], k, v => [(k, v)]
  | (k', v') :: rest, k, v =>
    if k' = k then (k', v) :: rest else (k', v') :: aset rest k v

/-- Remove the first entry with the given key (JavaScript delete). -/
def aerase {α : Type} : List (String × α) → String → List (String × α)
  | [], _ => []
  | (k', v') :: rest, k =>
    if k' = k then rest else (k', v') :: aerase rest k

/-- The keys of an association list. -/
def keysOf {α : Type} (l : List (String × α)) : List String :=
  l.map Prod.fst

theorem alookup_aset_self {α : Type} (l : List (String × α)) (k : String) (v : α) :
    alookup (aset l k v) k = some v := by
  induction l with
  | nil => simp [aset, alookup]
  | cons hd tl ih =>
    obtain ⟨k', v'⟩ := hd
    by_cases h : k' = k <;> simp [aset, alookup, h, ih]

theorem alookup_aset_other {α : Type} (l : List (String × α)) (k k' : String) (v : α)
    (h : k' ≠ k) : alookup (aset l k v) k' = alookup l k' := by
  have h' : ¬ (k = k') := fun hh => h hh.symm
  induction l with
  | nil => simp [aset, alookup, h']
  | cons hd tl ih =>
    obtain ⟨k₀, v₀⟩ := hd
    by_cases hk : k₀ = k
    · subst hk
      simp [aset, alookup, h']
    · simp [aset, alookup, hk, ih]

theorem alookup_eq_none_of_not_mem_keys {α : Type} (l : List (String × α)) (k : String)
    (h : k ∉ keysOf l) : alookup l k = none := by
  induction l with
  | nil => simp [alookup]
  | cons hd tl ih =>
    obtain ⟨k₀, v₀⟩ := hd
    simp only [keysOf, List.map_cons, List.mem_cons, not_or] at h
    have hne : ¬ (k₀ = k) := fun hh => h.1 hh.symm
    simp only [alookup, if_neg hne]
    exact ih h.2

theorem alookup_aerase_self {α : Type} (l : List (String × α)) (k : String)
    (h : (keysOf l).Nodup) : alookup (aerase l k) k = none := by
  induction l with
  | nil => simp [aerase, alookup]
  | cons hd tl ih =>
    obtain ⟨k₀, v₀⟩ := hd
    simp only [keysOf, List.map_cons, List.nodup_cons] at h
    by_cases hk : k₀ = k
    · subst hk
      simp only [aerase, if_pos rfl]
      exact alookup_eq_none_of_not_mem_keys tl k₀ h.1
    · simp only [aerase, if_neg hk, alookup, if_neg hk]
      exact ih h.2

theorem alookup_aerase_other {α : Type} (l : List (String × α)) (k k' : String)
    (h : k' ≠ k) : alookup (aerase l k) k' = alookup l k' := by
  induction l with
  | nil => simp [aerase]
  | cons hd tl ih =>
    obtain ⟨k₀, v₀⟩ := hd
    by_cases hk : k₀ = k
    · subst hk
      have h' : ¬ (k₀ = k') := fun hh => h hh.symm
      simp [aerase, alookup, h']
    · simp [aerase, alookup, hk, ih]

theorem mem_keysOf_aset {α : Type} (l : List (String × α)) (k x : String) (v : α)
    (h : x ∈ keysOf (aset l k v)) : x ∈ keysOf l ∨ x = k := by
  induction l with
  | nil => simpa [aset, keysOf] using h
  | cons hd tl ih =>
    obtain ⟨k₀, v₀⟩ := hd
    by_cases hk : k₀ = k
    · subst hk
      have hs : aset ((k₀, v₀) :: tl) k₀ v = (k₀, v) :: tl := by simp [aset]
      rw [hs] at h
      simp only [keysOf, List.map_cons, List.mem_cons] at h ⊢
      exact Or.inl h
    · simp only [aset, if_neg hk, keysOf, List.map_cons, List.mem_cons] at h ⊢
      rcases h with h | h
      · exact Or.inl (Or.inl h)
      · rcases ih h with h' | h'
        · exact Or.inl (Or.inr h')
        · exact Or.inr h'

theorem nodup_keysOf_aset {α : Type} (l : List (String × α)) (k : String) (v : α)
    (h : (keysOf l).Nodup) : (keysOf (aset l k v)).Nodup := by
  induction l with
  | nil => simp [aset, keysOf]
  | cons hd tl ih =>
    obtain ⟨k₀, v₀⟩ := hd
    simp only [keysOf, List.map_cons, List.nodup_cons] at h
    by_cases hk : k₀ = k
    · subst hk
      have hs : aset ((k₀, v₀) :: tl) k₀ v = (k₀, v) :: tl := by simp [aset]
      rw [hs]
      simp only [keysOf, List.map_cons, List.nodup_cons]
      exact h
    · simp only [aset, if_neg hk, keysOf, List.map_cons, List.nodup_cons]
      refine ⟨fun hm => ?_, ih h.2⟩
      rcases mem_keysOf_aset tl k k₀ v hm with h' | h'
      · exact h.1 h'
      · exact hk h'

theorem mem_keysOf_aerase {α : Type} (l : List (String × α)) (k x : String)
    (h : x ∈ keysOf (aerase l k)) : x ∈ keysOf l := by
  induction l with
  | nil => simp [aerase, keysOf] at h
  | cons hd tl ih =>
    obtain ⟨k₀, v₀⟩ := hd
    by_cases hk : k₀ = k
    · subst hk
      simp only [aerase, if_pos rfl] at h
      simp only [keysOf, List.map_cons, List.mem_cons]
      exact Or.inr h
    · simp only [aerase, if_neg hk, keysOf, List.map_cons, List.mem_cons] at h ⊢
      rcases h with h | h
      · exact Or.inl h
      · exact Or.inr (ih h)

theorem nodup_keysOf_aerase {α : Type} (l : List (String × α)) (k : String)
    (h : (keysOf l).Nodup) : (keysOf (aerase l k)).Nodup := by
  induction l with
  | nil => simp [aerase, keysOf]
  | cons hd tl ih =>
    obtain ⟨k₀, v₀⟩ := hd
    simp only [keysOf, List.map_cons, List.nodup_cons] at h
    by_cases hk : k₀ = k
    · subst hk
      simp only [aerase, if_pos rfl]
      exact h.2
    · simp only [aerase, if_neg hk, keysOf, List.map_cons, List.nodup_cons]
      exact ⟨fun hm => h.1 (mem_keysOf_aerase tl k k₀ hm), ih h.2⟩

/-- Modelled from the spec (Reference Counter, spec 4.3): lib/subs_counter.js
is not among the given sources.  A reference counter maps a canonical pattern
string to the number of logical subscribers attached to it: add increments,
remove decrements and drops the entry when the count reaches zero (removing
an absent pattern is a no-op), incl (source name: include) tells whether the
count is positive, and clear drops all entries. -/
structure SubsCounter where
  counts : List (String × Nat)
deriving DecidableEq

/-- The empty reference counter. -/
def SubsCounter.empty : SubsCounter := ⟨[]⟩

/-- The count registered for a pattern (zero when absent). -/
def SubsCounter.count (c : SubsCounter) (k : String) : Nat :=
  (alookup c.counts k).getD 0

/-- Modelled from the spec: increment the count of a pattern. -/
def SubsCounter.add (c : SubsCounter) (k : String) : SubsCounter :=
  ⟨aset c.counts k (c.count k + 1)⟩

/-- Modelled from the spec: decrement the count of a pattern, dropping the
entry at zero; a no-op when the pattern is absent. -/
def SubsCounter.remove (c : SubsCounter) (k : String) : SubsCounter :=
  match alookup c.counts k with
  | none => c
  | some n => if n ≤ 1 then ⟨aerase c.counts k⟩ else ⟨aset c.counts k (n - 1)⟩

/-- Modelled from the spec: whether the pattern has a positive count
(source method name: include). -/
def SubsCounter.incl (c : SubsCounter) (k : String) : Bool :=
  c.count k != 0

/-- Modelled from the spec: drop all entries (used on close). -/
def SubsCounter.clear (_c : SubsCounter) : SubsCounter := ⟨[]⟩

/-- Well-formedness of a counter: one entry per pattern. -/
def SubsCounter.WF (c : SubsCounter) : Prop := (keysOf c.counts).Nodup

theorem SubsCounter.count_add_self (c : SubsCounter) (k : String) :
    (c.add k).count k = c.count k + 1 := by
  simp [add, count, alookup_aset_self]

theorem SubsCounter.count_add_other (c : SubsCounter) (k k' : String) (h : k' ≠ k) :
    (c.add k).count k' = c.count k' := by
  simp [add, count, alookup_aset_other _ _ _ _ h]

theorem SubsCounter.count_remove_self (c : SubsCounter) (k : String) (hwf : c.WF) :
    (c.remove k).count k = c.count k - 1 := by
  unfold remove
  cases hl : alookup c.counts k with
  | none => simp [count, hl]
  | some n =>
    by_cases hn : n ≤ 1
    · simp only [hl, if_pos hn]
      have : alookup (aerase c.counts k) k = none := alookup_aerase_self _ _ hwf
      simp only [count, this, Option.getD_none, hl, Option.getD_some]
      omega
    · simp only [hl, if_neg hn]
      simp [count, alookup_aset_self, hl]

theorem SubsCounter.count_remove_other (c : SubsCounter) (k k' : String) (h : k' ≠ k) :
    (c.remove k).count k' = c.count k' := by
  unfold remove
  cases hl : alookup c.counts k with
  | none => rfl
  | some n =>
    by_cases hn : n ≤ 1
    · simp [count, hn, alookup_aerase_other _ _ _ h]
    · simp [count, hn, alookup_aset_other _ _ _ _ h]

theorem SubsCounter.wf_add (c : SubsCounter) (k : String) (h : c.WF) : (c.add k).WF :=
  nodup_keysOf_aset _ _ _ h

theorem SubsCounter.wf_remove (c : SubsCounter) (k : String) (h : c.WF) : (c.remove k).WF := by
  unfold remove
  cases alookup c.counts k with
  | none => exact h
  | some n =>
    by_cases hn : n ≤ 1
    · simpa [hn, WF] using nodup_keysOf_aerase _ k h
    · simpa [hn, WF] using nodup_keysOf_aset _ k (n - 1) h

/-- The transport configuration an adapter passes to the abstract base:
its native separator, single-level wildcard symbol and multi-level
wildcard symbol (all single characters for the adapters in the sources). -/
structure TransportCfg where
  separator : Char
  wildcardOne : Char
  wildcardSome : Char
deriving DecidableEq

/-- The configuration the AMQP adapter passes to the abstract base
(source: separator '.', wildcardOne '*', wildcardSome '#'). -/
def amqpCfg : TransportCfg := ⟨'.', '*', '#'⟩

/-- The configuration the Redis cluster adapter passes to the abstract base
(source: separator '/', wildcardOne '*', wildcardSome '*': both canonical
wildcards are mapped to the same transport symbol). -/
def redisClusterCfg : TransportCfg := ⟨'/', '*', '*'⟩

/-- One segment of a canonical topic or pattern: a literal, the canonical
single-level wildcard or the canonical multi-level wildcard. -/
inductive Seg where
  | lit (s : String)
  | wone
  | wsome
deriving DecidableEq

/-- Modelled from the spec (Topic Translator, spec 4.1):
abstract_ascoltatore.js is not among the given sources.  Outbound
translation of one canonical segment into the transport's native segment:
the canonical wildcards become the transport's wildcard symbols and a
literal passes through. -/
def segOut (cfg : TransportCfg) : Seg → String
  | .lit s => s
  | .wone => String.singleton cfg.wildcardOne
  | .wsome => String.singleton cfg.wildcardSome

/-- Modelled from the spec: outbound translation of a canonical pattern,
segment by segment, into the transport's native segment sequence. -/
def translateOut (cfg : TransportCfg) (t : List Seg) : List String :=
  t.map (segOut cfg)

/-- Modelled from the spec: inbound translation of one transport segment
back into a canonical segment; the transport's single-level wildcard symbol
is recognised before the multi-level one. -/
def segIn (cfg : TransportCfg) (x : String) : Seg :=
  if x = String.singleton cfg.wildcardOne then .wone
  else if x = String.singleton cfg.wildcardSome then .wsome
  else .lit x

/-- Modelled from the spec: inbound translation of a transport segment
sequence back into a canonical pattern. -/
def translateIn (cfg : TransportCfg) (l : List String) : List Seg :=
  l.map (segIn cfg)

/-- A canonical segment is free of the transport's reserved characters when
a literal contains neither the transport's separator nor either wildcard
symbol (wildcard segments carry no characters of their own). -/
def segReservedFree (cfg : TransportCfg) : Seg → Prop
  | .lit s => cfg.separator ∉ s.data ∧ cfg.wildcardOne ∉ s.data ∧ cfg.wildcardSome ∉ s.data
  | .wone => True
  | .wsome => True

instance (cfg : TransportCfg) (sg : Seg) : Decidable (segReservedFree cfg sg) := by
  cases sg <;> simp [segReservedFree] <;> infer_instance

theorem String.singleton_data (c : Char) : (String.singleton c).data = [c] := rfl

theorem segIn_segOut (cfg : TransportCfg) (sg : Seg) (hres : segReservedFree cfg sg)
    (hw : cfg.wildcardOne ≠ cfg.wildcardSome ∨ sg ≠ Seg.wsome) :
    segIn cfg (segOut cfg sg) = sg := by
  cases sg with
  | lit s =>
    have h1 : s ≠ String.singleton cfg.wildcardOne := by
      intro hh
      apply hres.2.1
      rw [hh, String.singleton_data]
      simp
    have h2 : s ≠ String.singleton cfg.wildcardSome := by
      intro hh
      apply hres.2.2
      rw [hh, String.singleton_data]
      simp
    simp [segOut, segIn, h1, h2]
  | wone => simp [segOut, segIn]
  | wsome =>
    have hne : cfg.wildcardOne ≠ cfg.wildcardSome := by
      rcases hw with h | h
      · exact h
      · exact absurd rfl h
    have hs : String.singleton cfg.wildcardSome ≠ String.singleton cfg.wildcardOne := by
      intro hh
      have := congrArg String.data hh
      rw [String.singleton_data, String.singleton_data] at this
      exact hne (List.cons.inj this).1.symm
    simp [segOut, segIn, hs]

/-- Round trip of the spec-modelled translator over a whole canonical
pattern: literals must avoid the transport's reserved characters, and when
the transport does not distinguish its two wildcard symbols the pattern
must not use the multi-level wildcard. -/
theorem translateIn_translateOut (cfg : TransportCfg) (t : List Seg)
    (hres : ∀ sg ∈ t, segReservedFree cfg sg)
    (hw : cfg.wildcardOne ≠ cfg.wildcardSome ∨ Seg.wsome ∉ t) :
    translateIn cfg (translateOut cfg t) = t := by
  induction t with
  | nil => rfl
  | cons hd tl ih =>
    have hhd : segIn cfg (segOut cfg hd) = hd := by
      refine segIn_segOut cfg hd (hres hd (by simp)) ?_
      rcases hw with h | h
      · exact Or.inl h
      · exact Or.inr (fun hh => h (hh ▸ List.mem_cons_self hd tl))
    have htl : translateIn cfg (translateOut cfg tl) = tl := by
      refine ih (fun sg hm => hres sg (List.mem_cons_of_mem hd hm)) ?_
      rcases hw with h | h
      · exact Or.inl h
      · exact Or.inr (fun hh => h (List.mem_cons_of_mem hd hh))
    simp only [translateOut, translateIn, List.map_cons] at htl ⊢
    rw [hhd, htl]

/-- Split a character list on a separator character, JavaScript
String.prototype.split semantics for a single-character separator. -/
def splitAux (sep : Char) : List Char → List Char → List String
  | [], acc => [String.mk acc.reverse]
  | c :: rest, acc =>
    if c = sep then String.mk acc.reverse :: splitAux sep rest [] else splitAux sep rest (c :: acc)

/-- Split a string on a separator character. -/
def splitOnSep (sep : Char) (s : String) : List String :=
  splitAux sep s.data []

/-- Join a list of strings with a separator character. -/
def joinSep (sep : Char) : List String → String
  | [] => ""
  | [x] => x
  | x :: rest => x ++ String.singleton sep ++ joinSep sep rest

/-- Whether a string ends with the given suffix (the source defines its own
endsWith helper over indexOf; for the suffixes used it agrees with plain
suffix testing). -/
def endsWithStr (s suffix : String) : Bool :=
  suffix.data.isSuffixOf s.data

/-- Modelled from the spec (Topic Translator, spec 4.1): the string form of
outbound translation used by the adapters' _subTopic and _pubTopic: the
canonical topic is parsed on the canonical separator '/', each segment is
substituted (canonical '+' to the transport's single-level symbol, canonical
'*' to its multi-level symbol) and the result is joined with the transport's
separator. -/
def segOutStr (cfg : TransportCfg) (x : String) : String :=
  if x = "+" then String.singleton cfg.wildcardOne
  else if x = "*" then String.singleton cfg.wildcardSome
  else x

/-- Modelled from the spec: outbound translation of a raw canonical topic
string to the transport's native topic string. -/
def translateOutStr (cfg : TransportCfg) (t : String) : String :=
  joinSep cfg.separator ((splitOnSep '/' t).map (segOutStr cfg))

/-- The AMQP adapter's _subTopic and _pubTopic (outbound translation under
the AMQP configuration). -/
def amqpTopic (t : String) : String := translateOutStr amqpCfg t

/-- The Redis cluster adapter's _subTopic and _pubTopic (outbound
translation under the cluster configuration; the separator is unchanged). -/
def rcTopic (t : String) : String := translateOutStr redisClusterCfg t

/-- Transport-level actions performed by the AMQP adapter. -/
inductive AMQPAct where
  | bind (key : String)
  | unbind (key : String)
  | queuePub (queue : String) (idHeader : Option String) (mqttTopic : String) (payload : JsVal)
  | exchangePub (key : String) (payload : JsVal)
  | destroyQueue
  | connEnd
deriving DecidableEq

/-- An error object carrying a message, as produced by new Error(msg). -/
structure ErrObj where
  message : String
deriving DecidableEq

/-- Notifications emitted by an adapter to its observers. -/
inductive Ev where
  | ready
  | closedEv
  | error (e : ErrObj)
deriving DecidableEq

/-- The cause handed to a connection error listener: either a plain string
or an already-constructed error object. -/
inductive JsCause where
  | str (s : String)
  | err (e : ErrObj)
deriving DecidableEq

/-- The AMQP error listener wraps a string cause into an error object and
passes an error object through (source lines 69-75 of the AMQP adapter). -/
def wrapCause : JsCause → ErrObj
  | .str s => ⟨s⟩
  | .err e => e

/-- How the completion callback of a close() call is disposed of: fired
immediately, attached to the eventual closed notification, fired when the
connection close event arrives, fired when the cluster client confirms
disconnection, or never fired. -/
inductive DoneDisp where
  | immediate
  | attachedToClosed
  | onConnClose
  | onDisconnect
  | never
deriving DecidableEq

/-- Modelled from the spec (Subscription Trie, spec 4.2):
lib/trie_ascoltatore.js is not among the given sources.  For the claims
considered here only the multiset of registered (pattern, delivery target)
pairs of a local fan-out ascoltatore matters; delivery targets are
identified by numbers. -/
structure TrieAscoltatore where
  subs : List (String × Nat)
deriving DecidableEq

/-- A fresh local fan-out ascoltatore. -/
def TrieAscoltatore.empty : TrieAscoltatore := ⟨[]⟩

/-- Modelled from the spec: registering a subscription appends it. -/
def TrieAscoltatore.subscribe (a : TrieAscoltatore) (topic : String) (cb : Nat) :
    TrieAscoltatore := ⟨a.subs ++ [(topic, cb)]⟩

/-- Remove the first occurrence of a pair from a list. -/
def eraseFirst {α : Type} [DecidableEq α] : List α → α → List α
  | [], _ => []
  | x :: rest, p => if x = p then rest else x :: eraseFirst rest p

/-- Modelled from the spec: deregistering removes the matching
subscription. -/
def TrieAscoltatore.unsubscribe (a : TrieAscoltatore) (topic : String) (cb : Nat) :
    TrieAscoltatore := ⟨eraseFirst a.subs (topic, cb)⟩

/-- The state of one AMQPAscoltatore instance.  The _closed and _closing
flags come from the abstract base (modelled from the spec: the base sets
_closed once the closed notification fires); connDefined, exchangeDefined
and queueDefined record whether _client_conn, _exchange and _queue are
defined (the exchange and the queue only exist once the connection start-up
sequence has completed; close deletes all three). -/
structure AMQPAscoltatore.State where
  closed : Bool
  closing : Bool
  ready : Bool
  connDefined : Bool
  exchangeDefined : Bool
  queueDefined : Bool
  subs_counter : SubsCounter
  ascoltatore : TrieAscoltatore
deriving DecidableEq

/-- The state right after the constructor ran: _startConn has stored the
connection object, but the exchange and the queue are created only later in
the asynchronous start-up sequence, and the ready notification has not
fired. -/
def AMQPAscoltatore.initial : AMQPAscoltatore.State :=
  ⟨false, false, false, true, false, false, SubsCounter.empty, TrieAscoltatore.empty⟩

/-- The completion of the start-up sequence in _startConn: the exchange and
the queue now exist and the ready notification fires. -/
def AMQPAscoltatore.connReady (s : AMQPAscoltatore.State) :
    AMQPAscoltatore.State × List Ev :=
  ({ s with ready := true, exchangeDefined := true, queueDefined := true }, [Ev.ready])

/-- Modelled from the spec (spec 4.5 and 7): the abstract base's
_raiseIfClosed guard rejects an operation with a closed-condition error once
close() has begun, that is in the closing and closed states. -/
def AMQPAscoltatore.raiseIfClosed (s : AMQPAscoltatore.State) : Bool :=
  s.closing || s.closed

/-- AMQPAscoltatore.prototype.subscribe (source lines 128-154): after the
closed guard, the subscription is registered with the local trie; when the
reference counter does not yet include the topic the queue is bound to the
exchange under the translated topic (accessing the queue raises a TypeError
while it is still undefined), otherwise the completion is deferred with no
transport call; finally the counter is incremented. -/
def AMQPAscoltatore.subscribe (s : AMQPAscoltatore.State) (topic : String) (cb : Nat) :
    AMQPAscoltatore.State × List AMQPAct × Option JsErr :=
  if AMQPAscoltatore.raiseIfClosed s then (s, [], some JsErr.closed)
  else
    let s1 := { s with ascoltatore := s.ascoltatore.subscribe topic cb }
    if s1.subs_counter.incl topic = false then
      if s1.queueDefined = false then (s1, [], some JsErr.typeErr)
      else
        ({ s1 with subs_counter := s1.subs_counter.add topic },
         [AMQPAct.bind (amqpTopic topic)], none)
    else
      ({ s1 with subs_counter := s1.subs_counter.add topic }, [], none)

/-- AMQPAscoltatore.prototype.unsubscribe (source lines 200-220): after the
closed guard, the counter is decremented and the subscription removed from
the local trie; when the counter no longer includes the topic the queue is
unbound (accessing the queue raises a TypeError while it is undefined),
otherwise the completion is deferred with no transport call. -/
def AMQPAscoltatore.unsubscribe (s : AMQPAscoltatore.State) (topic : String) (cb : Nat) :
    AMQPAscoltatore.State × List AMQPAct × Option JsErr :=
  if AMQPAscoltatore.raiseIfClosed s then (s, [], some JsErr.closed)
  else
    let s1 := { s with subs_counter := s.subs_counter.remove topic,
                       ascoltatore := s.ascoltatore.unsubscribe topic cb }
    if s1.subs_counter.incl topic = false then
      if s1.queueDefined = false then (s1, [], some JsErr.typeErr)
      else (s1, [AMQPAct.unbind (amqpTopic topic)], none)
    else (s1, [], none)

/-- Side queue names declared in the AMQP adapter's constructor. -/
def dataV1Queue : String := "mqtt-broker:device:data"

def powerQueue : String := "mqtt-broker:device:power"

def dataV2Queue : String := "mqtt-broker:device:v2:data"

def deviceConnectQueue : String := "mqtt-broker:device:v2:connect"

def transmitterConnectQueue : String := "mqtt-broker:transmitter:v2:connect"

/-- The topic-convention based forwarding in
AMQPAscoltatore.prototype.publish (source lines 168-194): depending on the
second path segment being v1 or v2 and on the shape of the remaining
segments, the unchanged message is forwarded to one of the declared side
queues over the client connection, with identifier and topic headers. -/
def AMQPAscoltatore.sideForwards (topic : String) (message : JsVal) : List AMQPAct :=
  let topicParts := splitOnSep '/' topic
  if topicParts[1]? = some "v1" then
    if endsWithStr topic "/data" = true then
      [AMQPAct.queuePub dataV1Queue topicParts[2]? topic message]
    else if endsWithStr topic "/data/power" = true then
      [AMQPAct.queuePub powerQueue topicParts[2]? topic message]
    else []
  else if topicParts[1]? = some "v2" then
    if topicParts[3]? = some "transmitter" ∧ topicParts[4]? = some "presence" ∧
        topicParts[5]? = some "connect" then
      [AMQPAct.queuePub transmitterConnectQueue topicParts[2]? topic message]
    else if topicParts[3]? = some "device" ∧ topicParts[4]? = some "presence" ∧
        topicParts[5]? = some "connect" then
      [AMQPAct.queuePub deviceConnectQueue topicParts[2]? topic message]
    else if topicParts[3]? = some "device" ∧ topicParts[4]? = some "data" then
      [AMQPAct.queuePub dataV2Queue topicParts[2]? topic message]
    else []
  else []

/-- AMQPAscoltatore.prototype.publish (source lines 162-198): after the
closed guard, the message is forwarded unchanged to the matching side
queues, and then published on the exchange under the translated topic after
a String() conversion (accessing the exchange raises a TypeError while it
is still undefined, after the side forwards already happened). -/
def AMQPAscoltatore.publish (s : AMQPAscoltatore.State) (topic : String) (message : JsVal) :
    AMQPAscoltatore.State × List AMQPAct × Option JsErr :=
  if AMQPAscoltatore.raiseIfClosed s then (s, [], some JsErr.closed)
  else
    let fwd := AMQPAscoltatore.sideForwards topic message
    if s.exchangeDefined = false then (s, fwd, some JsErr.typeErr)
    else
      (s, fwd ++ [AMQPAct.exchangePub (amqpTopic topic) (JsVal.str (jsToString message))], none)

/-- AMQPAscoltatore.prototype.close (source lines 222-260): a close on a
closed instance fires its callback immediately and does nothing; a close
while closing attaches the callback to the closed notification and does
nothing; otherwise the instance becomes closing, the queue is destroyed,
the connection is ended and the connection, exchange and queue fields are
deleted, with the callback deferred to the connection close event.  (When
no connection exists the callback is never fired.) -/
def AMQPAscoltatore.close (s : AMQPAscoltatore.State) :
    AMQPAscoltatore.State × List AMQPAct × DoneDisp :=
  if s.closed then (s, [], DoneDisp.immediate)
  else if s.closing then (s, [], DoneDisp.attachedToClosed)
  else
    if s.connDefined then
      ({ s with closing := true, connDefined := false, exchangeDefined := false,
                queueDefined := false },
       [AMQPAct.destroyQueue, AMQPAct.connEnd], DoneDisp.onConnClose)
    else ({ s with closing := true }, [], DoneDisp.never)

/-- The doClose finalizer registered by close() on the connection close
event (source lines 238-249): guarded against running twice, it fires the
closed notification; the abstract base (modelled from the spec) then sets
_closed. -/
def AMQPAscoltatore.connCloseEvent (s : AMQPAscoltatore.State) :
    AMQPAscoltatore.State × List Ev :=
  if s.closed then (s, []) else ({ s with closed := true }, [Ev.closedEv])

/-- The connection error listener (source lines 69-75): a string cause is
wrapped into an error object and the error notification is emitted; the
instance state is left unchanged.  Once close() has run it has replaced the
error listeners with the doClose finalizer (source lines 253-254), so in
the closing states an error event instead completes the close. -/
def AMQPAscoltatore.connError (s : AMQPAscoltatore.State) (cause : JsCause) :
    AMQPAscoltatore.State × List Ev :=
  if s.closing then
    if s.closed then (s, []) else ({ s with closed := true }, [Ev.closedEv])
  else (s, [Ev.error (wrapCause cause)])

/-- Transport-level actions performed by the Redis cluster adapter against
its cluster client and its local fan-out ascoltatores. -/
inductive RCAct where
  | rsubscribe (key : String)
  | rpsubscribe (key : String)
  | runsubscribe (key : String)
  | rpunsubscribe (key : String)
  | rpublish (key : String) (payload : JsVal)
  | localClose (key : String)
  | disconnect
deriving DecidableEq

/-- The state of one RedisClusterAscoltatore instance: the closed flag from
the abstract base (set when the closed notification fires), the readiness
flag, the reference counter and the map from transport subscription key to
the local fan-out ascoltatore. -/
structure RedisClusterAscoltatore.State where
  closed : Bool
  ready : Bool
  subs_counter : SubsCounter
  ascoltatores : List (String × TrieAscoltatore)
deriving DecidableEq

/-- The state right after the constructor ran. -/
def RedisClusterAscoltatore.initial : RedisClusterAscoltatore.State :=
  ⟨false, false, SubsCounter.empty, []⟩

/-- RedisClusterAscoltatore.prototype._containsWildcard (source lines
99-102): whether the raw topic contains the configured single-level or
multi-level wildcard symbol (both are '*' in the cluster configuration). -/
def RedisClusterAscoltatore.containsWildcard (topic : String) : Bool :=
  topic.data.contains redisClusterCfg.wildcardOne ||
  topic.data.contains redisClusterCfg.wildcardSome

/-- The transport subscription key computed by subscribe and unsubscribe
(source lines 112-116 and 164-168): the translated topic, with a trailing
'/' appended unless it already ends in '/' or '*'. -/
def RedisClusterAscoltatore.subKey (topic : String) : String :=
  let subTopic := rcTopic topic
  if endsWithStr subTopic "/" || endsWithStr subTopic "*" then subTopic else subTopic ++ "/"

/-- RedisClusterAscoltatore.prototype.subscribe (source lines 104-138):
after the closed guard, a pattern subscription is issued to the cluster
client when the topic contains a wildcard symbol and a plain subscription
otherwise, always under the computed key; the reference counter is
incremented for the key; a local fan-out ascoltatore is created for the key
if none exists, and the subscription is registered with it. -/
def RedisClusterAscoltatore.subscribe (s : RedisClusterAscoltatore.State)
    (topic : String) (cb : Nat) :
    RedisClusterAscoltatore.State × List RCAct × Option JsErr :=
  if s.closed then (s, [], some JsErr.closed)
  else
    let key := RedisClusterAscoltatore.subKey topic
    let act := if RedisClusterAscoltatore.containsWildcard topic then
      RCAct.rpsubscribe key else RCAct.rsubscribe key
    let counter := s.subs_counter.add key
    let ascs := match alookup s.ascoltatores key with
      | some a => aset s.ascoltatores key (a.subscribe topic cb)
      | none => aset s.ascoltatores key (TrieAscoltatore.empty.subscribe topic cb)
    ({ s with subs_counter := counter, ascoltatores := ascs }, [act], none)

/-- RedisClusterAscoltatore.prototype.unsubscribe (source lines 160-200):
after the closed guard, the reference counter is decremented for the key
and the subscription is deregistered from the local fan-out ascoltatore
when one exists; when the counter still includes the key the call completes
with no transport action; otherwise the local ascoltatore (when present) is
closed and removed, and the matching retraction (pattern-level exactly when
the topic contains a wildcard symbol) is issued to the cluster client. -/
def RedisClusterAscoltatore.unsubscribe (s : RedisClusterAscoltatore.State)
    (topic : String) (cb : Nat) :
    RedisClusterAscoltatore.State × List RCAct × Option JsErr :=
  if s.closed then (s, [], some JsErr.closed)
  else
    let isWildcard := RedisClusterAscoltatore.containsWildcard topic
    let key := RedisClusterAscoltatore.subKey topic
    let counter := s.subs_counter.remove key
    let ascOpt := alookup s.ascoltatores key
    let ascs1 := match ascOpt with
      | some a => aset s.ascoltatores key (a.unsubscribe topic cb)
      | none => s.ascoltatores
    if counter.incl key then
      ({ s with subs_counter := counter, ascoltatores := ascs1 }, [], none)
    else
      let closeActs := match ascOpt with
        | some _ => [RCAct.localClose key]
        | none => []
      let ascs2 := match ascOpt with
        | some _ => aerase ascs1 key
        | none => ascs1
      let act := if isWildcard then RCAct.rpunsubscribe key else RCAct.runsubscribe key
      ({ s with subs_counter := counter, ascoltatores := ascs2 }, closeActs ++ [act], none)

/-- RedisClusterAscoltatore.prototype.publish (source lines 140-158): after
the closed guard, a null or undefined message is replaced by false (source
comment: so we can convert it to JSON), and the message is published to the
cluster client under the translated topic with a trailing '/' appended
unless already present. -/
def RedisClusterAscoltatore.publish (s : RedisClusterAscoltatore.State)
    (topic : String) (message : JsVal) :
    RedisClusterAscoltatore.State × List RCAct × Option JsErr :=
  if s.closed then (s, [], some JsErr.closed)
  else
    let message' := if message = JsVal.undef ∨ message = JsVal.null then
      JsVal.boolean false else message
    let pubTopic := rcTopic topic
    let pubTopic' := if endsWithStr pubTopic "/" then pubTopic else pubTopic ++ "/"
    (s, [RCAct.rpublish pubTopic' message'], none)

/-- RedisClusterAscoltatore.prototype.close (source lines 202-226): a close
on a closed instance fires its callback immediately with no side effects;
otherwise the reference counter is cleared, the cluster client is asked to
disconnect (with the callback deferred to its confirmation), every local
fan-out ascoltatore is closed, the map is emptied and the closed
notification fires (the abstract base then sets _closed). -/
def RedisClusterAscoltatore.close (s : RedisClusterAscoltatore.State) :
    RedisClusterAscoltatore.State × List RCAct × DoneDisp :=
  if s.closed then (s, [], DoneDisp.immediate)
  else
    ({ s with closed := true, subs_counter := s.subs_counter.clear, ascoltatores := [] },
     RCAct.disconnect :: (keysOf s.ascoltatores).map RCAct.localClose,
     DoneDisp.onDisconnect)

/-- A post-ready AMQP adapter state: the constructor ran and the start-up
sequence completed. -/
def amqpReadyState : AMQPAscoltatore.State :=
  (AMQPAscoltatore.connReady AMQPAscoltatore.initial).1

theorem SubsCounter.count_eq_zero_of_not_mem (c : SubsCounter) (k : String)
    (h : k ∉ keysOf c.counts) : c.count k = 0 := by
  simp [count, alookup_eq_none_of_not_mem_keys _ _ h]

instance (c : SubsCounter) : Decidable c.WF := by
  unfold SubsCounter.WF
  infer_instance

/-- Claim C1: subscribing a pattern twice on the AMQP adapter with two
distinct delivery targets issues exactly one transport-level subscribe (the
queue bind, which happens only because the reference counter does not yet
include the pattern on the first call); unsubscribing one of the two
targets issues no transport-level unsubscribe, and unsubscribing the second
(bringing the count back to zero) issues exactly one queue unbind. -/
theorem c1_amqp_refcount (s : AMQPAscoltatore.State) (p : String) (cb1 cb2 : Nat)
    (h1 : s.closing = false) (h2 : s.closed = false) (h3 : s.queueDefined = true)
    (hwf : s.subs_counter.WF) (hfresh : p ∉ keysOf s.subs_counter.counts)
    (_hcb : cb1 ≠ cb2) :
    (AMQPAscoltatore.subscribe s p cb1).2 = ([AMQPAct.bind (amqpTopic p)], none) ∧
    (AMQPAscoltatore.subscribe (AMQPAscoltatore.subscribe s p cb1).1 p cb2).2 =
      ([], none) ∧
    (AMQPAscoltatore.unsubscribe
      (AMQPAscoltatore.subscribe (AMQPAscoltatore.subscribe s p cb1).1 p cb2).1 p cb1).2 =
      ([], none) ∧
    (AMQPAscoltatore.unsubscribe
      (AMQPAscoltatore.unsubscribe
        (AMQPAscoltatore.subscribe (AMQPAscoltatore.subscribe s p cb1).1 p cb2).1 p cb1).1
      p cb2).2 = ([AMQPAct.unbind (amqpTopic p)], none) := by
  have hc0 : s.subs_counter.count p = 0 :=
    SubsCounter.count_eq_zero_of_not_mem _ _ hfresh
  have hwf1 : (s.subs_counter.add p).WF := SubsCounter.wf_add _ _ hwf
  have hc1 : (s.subs_counter.add p).count p = 1 := by
    rw [SubsCounter.count_add_self, hc0]
  have hwf2 : ((s.subs_counter.add p).add p).WF := SubsCounter.wf_add _ _ hwf1
  have hc2 : ((s.subs_counter.add p).add p).count p = 2 := by
    rw [SubsCounter.count_add_self, hc1]
  have hc3 : (((s.subs_counter.add p).add p).remove p).count p = 1 := by
    rw [SubsCounter.count_remove_self _ _ hwf2, hc2]
  have hwf3 : (((s.subs_counter.add p).add p).remove p).WF := SubsCounter.wf_remove _ _ hwf2
  have hc4 : ((((s.subs_counter.add p).add p).remove p).remove p).count p = 0 := by
    rw [SubsCounter.count_remove_self _ _ hwf3, hc3]
  simp [AMQPAscoltatore.subscribe, AMQPAscoltatore.unsubscribe,
    AMQPAscoltatore.raiseIfClosed, SubsCounter.incl, h1, h2, h3, hc0, hc1, hc2, hc3, hc4]

/-- Witness for C1 at a concrete post-ready state. -/
theorem c1_amqp_refcount_witness :
    (AMQPAscoltatore.subscribe amqpReadyState "hello" 0).2 =
      ([AMQPAct.bind (amqpTopic "hello")], none) ∧
    (AMQPAscoltatore.subscribe (AMQPAscoltatore.subscribe amqpReadyState "hello" 0).1
      "hello" 1).2 = ([], none) ∧
    (AMQPAscoltatore.unsubscribe
      (AMQPAscoltatore.subscribe (AMQPAscoltatore.subscribe amqpReadyState "hello" 0).1
        "hello" 1).1 "hello" 0).2 = ([], none) ∧
    (AMQPAscoltatore.unsubscribe
      (AMQPAscoltatore.unsubscribe
        (AMQPAscoltatore.subscribe (AMQPAscoltatore.subscribe amqpReadyState "hello" 0).1
          "hello" 1).1 "hello" 0).1 "hello" 1).2 =
      ([AMQPAct.unbind (amqpTopic "hello")], none) :=
  c1_amqp_refcount amqpReadyState "hello" 0 1 (by decide) (by decide) (by decide)
    (by decide) (by decide) (by decide)

/-- Claim C2 counterexample: on the AMQP adapter, after a subscription,
running close and then the connection close event reaches the closed state
with the reference counter still including the pattern and the local trie
still holding the subscription: the AMQP close never clears them. -/
theorem c2_counterexample :
    (AMQPAscoltatore.connCloseEvent
      (AMQPAscoltatore.close
        (AMQPAscoltatore.subscribe amqpReadyState "x" 0).1).1).1.closed = true ∧
    (AMQPAscoltatore.connCloseEvent
      (AMQPAscoltatore.close
        (AMQPAscoltatore.subscribe amqpReadyState "x" 0).1).1).1.subs_counter.incl "x" =
      true ∧
    (AMQPAscoltatore.connCloseEvent
      (AMQPAscoltatore.close
        (AMQPAscoltatore.subscribe amqpReadyState "x" 0).1).1).1.ascoltatore ≠
      TrieAscoltatore.empty := by decide

/-- Claim C2 (amended): when close() completes, the Redis cluster adapter
discards all subscriptions and clears both its local fan-out map and its
reference counter; the AMQP adapter's close leaves its reference counter
and its local trie untouched (it only discards the connection, exchange and
queue). -/
theorem c2_close_clears (t : RedisClusterAscoltatore.State) (s : AMQPAscoltatore.State)
    (h : t.closed = false) :
    (RedisClusterAscoltatore.close t).1.subs_counter = SubsCounter.empty ∧
    (RedisClusterAscoltatore.close t).1.ascoltatores = [] ∧
    (RedisClusterAscoltatore.close t).1.closed = true ∧
    (AMQPAscoltatore.close s).1.subs_counter = s.subs_counter ∧
    (AMQPAscoltatore.close s).1.ascoltatore = s.ascoltatore := by
  refine ⟨?_, ?_, ?_, ?_, ?_⟩
  · simp [RedisClusterAscoltatore.close, SubsCounter.clear, SubsCounter.empty, h]
  · simp [RedisClusterAscoltatore.close, h]
  · simp [RedisClusterAscoltatore.close, h]
  · unfold AMQPAscoltatore.close
    split_ifs <;> rfl
  · unfold AMQPAscoltatore.close
    split_ifs <;> rfl

/-- Witness for C2 (amended) at concrete states. -/
theorem c2_close_clears_witness :
    (RedisClusterAscoltatore.close RedisClusterAscoltatore.initial).1.subs_counter =
      SubsCounter.empty ∧
    (RedisClusterAscoltatore.close RedisClusterAscoltatore.initial).1.ascoltatores = [] ∧
    (RedisClusterAscoltatore.close RedisClusterAscoltatore.initial).1.closed = true ∧
    (AMQPAscoltatore.close amqpReadyState).1.subs_counter = amqpReadyState.subs_counter ∧
    (AMQPAscoltatore.close amqpReadyState).1.ascoltatore = amqpReadyState.ascoltatore :=
  c2_close_clears RedisClusterAscoltatore.initial amqpReadyState (by decide)

/-- Claim C3 counterexample: under the Redis cluster configuration the
multi-level wildcard does not survive the round trip (it returns as the
single-level wildcard), and indeed both canonical wildcards translate
outward to the same transport segment, so no inbound translation could
invert the outbound one on wildcard patterns. -/
theorem c3_counterexample :
    translateIn redisClusterCfg (translateOut redisClusterCfg [Seg.wsome]) ≠ [Seg.wsome] ∧
    translateOut redisClusterCfg [Seg.wone] = translateOut redisClusterCfg [Seg.wsome] ∧
    [Seg.wone] ≠ [Seg.wsome] := by decide

/-- Claim C3 (amended): translating to the transport's native form and back
is the identity for every pattern whose literal segments contain no
transport-reserved characters under the AMQP configuration (whose wildcard
symbols are distinct); under the Redis cluster configuration, which maps
both canonical wildcards to the same symbol, the round trip holds exactly
for such patterns that avoid the multi-level wildcard, the single-level
wildcard being the one recovered on the way back in. -/
theorem c3_translate_roundtrip (t u : List Seg)
    (ht : ∀ sg ∈ t, segReservedFree amqpCfg sg)
    (hu : ∀ sg ∈ u, segReservedFree redisClusterCfg sg)
    (hu2 : Seg.wsome ∉ u) :
    translateIn amqpCfg (translateOut amqpCfg t) = t ∧
    translateIn redisClusterCfg (translateOut redisClusterCfg u) = u := by
  constructor
  · exact translateIn_translateOut amqpCfg t ht (Or.inl (by decide))
  · exact translateIn_translateOut redisClusterCfg u hu (Or.inr hu2)

/-- Witness for C3 (amended) at concrete patterns. -/
theorem c3_translate_roundtrip_witness :
    translateIn amqpCfg
      (translateOut amqpCfg [Seg.lit "sensors", Seg.wone, Seg.lit "temp"]) =
      [Seg.lit "sensors", Seg.wone, Seg.lit "temp"] ∧
    translateIn redisClusterCfg
      (translateOut redisClusterCfg [Seg.lit "a", Seg.wone, Seg.lit "b"]) =
      [Seg.lit "a", Seg.wone, Seg.lit "b"] :=
  c3_translate_roundtrip [Seg.lit "sensors", Seg.wone, Seg.lit "temp"]
    [Seg.lit "a", Seg.wone, Seg.lit "b"] (by decide) (by decide) (by decide)

/-- Claim C4: on both adapters, every subscribe, unsubscribe or publish
call issued once close() has begun raises the closed-condition error
synchronously, with the state unchanged and no local indexing and no
transport action performed; the call is never silently dropped.  (The
closed guard comes from the abstract base, modelled from the spec.) -/
theorem c4_closed_rejected (s : AMQPAscoltatore.State) (t : RedisClusterAscoltatore.State)
    (topic : String) (cb : Nat) (m : JsVal)
    (hs : s.closing = true ∨ s.closed = true) (ht : t.closed = true) :
    AMQPAscoltatore.subscribe s topic cb = (s, [], some JsErr.closed) ∧
    AMQPAscoltatore.unsubscribe s topic cb = (s, [], some JsErr.closed) ∧
    AMQPAscoltatore.publish s topic m = (s, [], some JsErr.closed) ∧
    RedisClusterAscoltatore.subscribe t topic cb = (t, [], some JsErr.closed) ∧
    RedisClusterAscoltatore.unsubscribe t topic cb = (t, [], some JsErr.closed) ∧
    RedisClusterAscoltatore.publish t topic m = (t, [], some JsErr.closed) := by
  have hr : AMQPAscoltatore.raiseIfClosed s = true := by
    rcases hs with h | h <;> simp [AMQPAscoltatore.raiseIfClosed, h]
  refine ⟨?_, ?_, ?_, ?_, ?_, ?_⟩
  · simp [AMQPAscoltatore.subscribe, hr]
  · simp [AMQPAscoltatore.unsubscribe, hr]
  · simp [AMQPAscoltatore.publish, hr]
  · simp [RedisClusterAscoltatore.subscribe, ht]
  · simp [RedisClusterAscoltatore.unsubscribe, ht]
  · simp [RedisClusterAscoltatore.publish, ht]

/-- Witness for C4 at a closing AMQP state and a closed cluster state. -/
theorem c4_closed_rejected_witness :
    AMQPAscoltatore.subscribe (AMQPAscoltatore.close amqpReadyState).1 "t" 0 =
      ((AMQPAscoltatore.close amqpReadyState).1, [], some JsErr.closed) ∧
    AMQPAscoltatore.unsubscribe (AMQPAscoltatore.close amqpReadyState).1 "t" 0 =
      ((AMQPAscoltatore.close amqpReadyState).1, [], some JsErr.closed) ∧
    AMQPAscoltatore.publish (AMQPAscoltatore.close amqpReadyState).1 "t" JsVal.null =
      ((AMQPAscoltatore.close amqpReadyState).1, [], some JsErr.closed) ∧
    RedisClusterAscoltatore.subscribe
      (RedisClusterAscoltatore.close RedisClusterAscoltatore.initial).1 "t" 0 =
      ((RedisClusterAscoltatore.close RedisClusterAscoltatore.initial).1, [],
        some JsErr.closed) ∧
    RedisClusterAscoltatore.unsubscribe
      (RedisClusterAscoltatore.close RedisClusterAscoltatore.initial).1 "t" 0 =
      ((RedisClusterAscoltatore.close RedisClusterAscoltatore.initial).1, [],
        some JsErr.closed) ∧
    RedisClusterAscoltatore.publish
      (RedisClusterAscoltatore.close RedisClusterAscoltatore.initial).1 "t" JsVal.null =
      ((RedisClusterAscoltatore.close RedisClusterAscoltatore.initial).1, [],
        some JsErr.closed) :=
  c4_closed_rejected (AMQPAscoltatore.close amqpReadyState).1
    (RedisClusterAscoltatore.close RedisClusterAscoltatore.initial).1 "t" 0 JsVal.null
    (Or.inl (by decide)) (by decide)

/-- A closing AMQP adapter state: close() ran on a ready instance but the
connection close event has not arrived yet. -/
def amqpClosingState : AMQPAscoltatore.State := (AMQPAscoltatore.close amqpReadyState).1

/-- A closed AMQP adapter state: the connection close event arrived after
close(). -/
def amqpClosedState : AMQPAscoltatore.State :=
  (AMQPAscoltatore.connCloseEvent amqpClosingState).1

/-- A closed Redis cluster adapter state. -/
def rcClosedState : RedisClusterAscoltatore.State :=
  (RedisClusterAscoltatore.close RedisClusterAscoltatore.initial).1

/-- Claim C5: calling close() more than once performs exactly one shutdown
sequence.  On the AMQP adapter a close on a closed instance completes its
callback immediately with no state change and no transport action; a close
while a prior close is in flight attaches its callback to the eventual
closed notification and performs no second shutdown; only the first close
performs the shutdown actions.  On the Redis cluster adapter, whose close
reaches the closed state synchronously, a second close completes
immediately with no side effects. -/
theorem c5_close_idempotent (s : AMQPAscoltatore.State)
    (t : RedisClusterAscoltatore.State) :
    (s.closed = true → AMQPAscoltatore.close s = (s, [], DoneDisp.immediate)) ∧
    (s.closed = false → s.closing = true →
      AMQPAscoltatore.close s = (s, [], DoneDisp.attachedToClosed)) ∧
    (s.closed = false → s.closing = false → s.connDefined = true →
      AMQPAscoltatore.close s =
        ({ s with closing := true, connDefined := false, exchangeDefined := false,
                  queueDefined := false },
         [AMQPAct.destroyQueue, AMQPAct.connEnd], DoneDisp.onConnClose)) ∧
    (t.closed = true → RedisClusterAscoltatore.close t = (t, [], DoneDisp.immediate)) := by
  refine ⟨?_, ?_, ?_, ?_⟩
  · intro h
    simp [AMQPAscoltatore.close, h]
  · intro h h'
    simp [AMQPAscoltatore.close, h, h']
  · intro h h' h''
    simp [AMQPAscoltatore.close, h, h', h'']
  · intro h
    simp [RedisClusterAscoltatore.close, h]

/-- Witness for C5 at concrete closed, closing and ready states. -/
theorem c5_close_idempotent_witness :
    AMQPAscoltatore.close amqpClosedState = (amqpClosedState, [], DoneDisp.immediate) ∧
    AMQPAscoltatore.close amqpClosingState =
      (amqpClosingState, [], DoneDisp.attachedToClosed) ∧
    AMQPAscoltatore.close amqpReadyState =
      ({ amqpReadyState with closing := true, connDefined := false,
                             exchangeDefined := false, queueDefined := false },
       [AMQPAct.destroyQueue, AMQPAct.connEnd], DoneDisp.onConnClose) ∧
    RedisClusterAscoltatore.close rcClosedState = (rcClosedState, [], DoneDisp.immediate) :=
  ⟨(c5_close_idempotent amqpClosedState rcClosedState).1 (by decide),
   (c5_close_idempotent amqpClosingState rcClosedState).2.1 (by decide) (by decide),
   (c5_close_idempotent amqpReadyState rcClosedState).2.2.1 (by decide) (by decide)
     (by decide),
   (c5_close_idempotent amqpReadyState rcClosedState).2.2.2 (by decide)⟩

/-- Claim C6 counterexample: a null payload is not forwarded unchanged: the
Redis cluster adapter hands the transport the boolean false in its place,
and the AMQP adapter hands its exchange the string "null" produced by the
String() conversion. -/
theorem c6_counterexample :
    (RedisClusterAscoltatore.publish RedisClusterAscoltatore.initial "hello"
      JsVal.null).2.1 = [RCAct.rpublish "hello/" (JsVal.boolean false)] ∧
    JsVal.boolean false ≠ JsVal.null ∧
    (AMQPAscoltatore.publish amqpReadyState "hello" JsVal.null).2.1 =
      [AMQPAct.exchangePub "hello" (JsVal.str "null")] ∧
    JsVal.str "null" ≠ JsVal.null := by decide

/-- Claim C6 (amended): publish does not forward every payload unchanged.
The Redis cluster adapter replaces null and undefined by the boolean false
and forwards any other payload unchanged; the AMQP adapter forwards the
payload unchanged to its side queues but hands the exchange the result of
the String() conversion. -/
theorem c6_payload_translation (t : RedisClusterAscoltatore.State)
    (s : AMQPAscoltatore.State) (topic : String) (m : JsVal)
    (ht : t.closed = false) (h1 : s.closing = false) (h2 : s.closed = false)
    (h3 : s.exchangeDefined = true) :
    (RedisClusterAscoltatore.publish t topic m).2.1 =
      [RCAct.rpublish
        (if endsWithStr (rcTopic topic) "/" then rcTopic topic else rcTopic topic ++ "/")
        (if m = JsVal.undef ∨ m = JsVal.null then JsVal.boolean false else m)] ∧
    (m ≠ JsVal.undef → m ≠ JsVal.null →
      (if m = JsVal.undef ∨ m = JsVal.null then JsVal.boolean false else m) = m) ∧
    (AMQPAscoltatore.publish s topic m).2.1 =
      AMQPAscoltatore.sideForwards topic m ++
        [AMQPAct.exchangePub (amqpTopic topic) (JsVal.str (jsToString m))] ∧
    (AMQPAscoltatore.sideForwards topic m).all
      (fun a => match a with
        | AMQPAct.queuePub _ _ _ pl => pl == m
        | _ => true) = true := by
  refine ⟨?_, ?_, ?_, ?_⟩
  · simp [RedisClusterAscoltatore.publish, ht]
  · intro hu hn
    simp [hu, hn]
  · simp [AMQPAscoltatore.publish, AMQPAscoltatore.raiseIfClosed, h1, h2, h3]
  · unfold AMQPAscoltatore.sideForwards
    simp only [List.all_eq_true]
    intro x hx
    repeat' split at hx
    all_goals simp_all

/-- Witness for C6 (amended) at a binary payload. -/
theorem c6_payload_translation_witness :
    (RedisClusterAscoltatore.publish RedisClusterAscoltatore.initial "img"
      (JsVal.buf [1, 2])).2.1 =
      [RCAct.rpublish
        (if endsWithStr (rcTopic "img") "/" then rcTopic "img" else rcTopic "img" ++ "/")
        (if JsVal.buf [1, 2] = JsVal.undef ∨ JsVal.buf [1, 2] = JsVal.null then
          JsVal.boolean false else JsVal.buf [1, 2])] ∧
    (JsVal.buf [1, 2] ≠ JsVal.undef → JsVal.buf [1, 2] ≠ JsVal.null →
      (if JsVal.buf [1, 2] = JsVal.undef ∨ JsVal.buf [1, 2] = JsVal.null then
        JsVal.boolean false else JsVal.buf [1, 2]) = JsVal.buf [1, 2]) ∧
    (AMQPAscoltatore.publish amqpReadyState "img" (JsVal.buf [1, 2])).2.1 =
      AMQPAscoltatore.sideForwards "img" (JsVal.buf [1, 2]) ++
        [AMQPAct.exchangePub (amqpTopic "img")
          (JsVal.str (jsToString (JsVal.buf [1, 2])))] ∧
    (AMQPAscoltatore.sideForwards "img" (JsVal.buf [1, 2])).all
      (fun a => match a with
        | AMQPAct.queuePub _ _ _ pl => pl == JsVal.buf [1, 2]
        | _ => true) = true :=
  c6_payload_translation RedisClusterAscoltatore.initial amqpReadyState "img"
    (JsVal.buf [1, 2]) (by decide) (by decide) (by decide) (by decide)

/-- Claim C7 counterexample: a subscribe issued against the freshly
constructed AMQP adapter before the readiness notification is not deferred:
it performs no transport action and raises a TypeError on the still
undefined queue. -/
theorem c7_counterexample :
    (AMQPAscoltatore.subscribe AMQPAscoltatore.initial "hello" 0).2 =
      ([], some JsErr.typeErr) := by decide

/-- Claim C7 (amended): operations issued before the readiness notification
are not queued for replay.  On the AMQP adapter a subscribe on a pattern the
counter does not include, an unsubscribe that brings the count to zero, and
any publish all raise a TypeError on the still undefined queue or exchange;
the Redis cluster adapter forwards the subscription to its cluster client
immediately even though readiness has not fired. -/
theorem c7_not_deferred (s : AMQPAscoltatore.State) (t : RedisClusterAscoltatore.State)
    (topic : String) (cb : Nat) (m : JsVal)
    (h1 : s.closing = false) (h2 : s.closed = false)
    (h3 : s.queueDefined = false) (h4 : s.exchangeDefined = false)
    (h5 : s.subs_counter.incl topic = false)
    (ht : t.closed = false) (_htr : t.ready = false) :
    (AMQPAscoltatore.subscribe s topic cb).2 = ([], some JsErr.typeErr) ∧
    ((s.subs_counter.remove topic).incl topic = false →
      (AMQPAscoltatore.unsubscribe s topic cb).2 = ([], some JsErr.typeErr)) ∧
    (AMQPAscoltatore.publish s topic m).2.2 = some JsErr.typeErr ∧
    (RedisClusterAscoltatore.subscribe t topic cb).2.1 =
      [if RedisClusterAscoltatore.containsWildcard topic then
        RCAct.rpsubscribe (RedisClusterAscoltatore.subKey topic)
      else RCAct.rsubscribe (RedisClusterAscoltatore.subKey topic)] := by
  refine ⟨?_, ?_, ?_, ?_⟩
  · simp [AMQPAscoltatore.subscribe, AMQPAscoltatore.raiseIfClosed, h1, h2, h3, h5]
  · intro h6
    simp [AMQPAscoltatore.unsubscribe, AMQPAscoltatore.raiseIfClosed, h1, h2, h3, h6]
  · simp [AMQPAscoltatore.publish, AMQPAscoltatore.raiseIfClosed, h1, h2, h4]
  · simp [RedisClusterAscoltatore.subscribe, ht]

/-- Witness for C7 (amended) at the freshly constructed states. -/
theorem c7_not_deferred_witness :
    (AMQPAscoltatore.subscribe AMQPAscoltatore.initial "pre" 0).2 =
      ([], some JsErr.typeErr) ∧
    ((AMQPAscoltatore.initial.subs_counter.remove "pre").incl "pre" = false →
      (AMQPAscoltatore.unsubscribe AMQPAscoltatore.initial "pre" 0).2 =
        ([], some JsErr.typeErr)) ∧
    (AMQPAscoltatore.publish AMQPAscoltatore.initial "pre" JsVal.null).2.2 =
      some JsErr.typeErr ∧
    (RedisClusterAscoltatore.subscribe RedisClusterAscoltatore.initial "pre" 0).2.1 =
      [if RedisClusterAscoltatore.containsWildcard "pre" then
        RCAct.rpsubscribe (RedisClusterAscoltatore.subKey "pre")
      else RCAct.rsubscribe (RedisClusterAscoltatore.subKey "pre")] :=
  c7_not_deferred AMQPAscoltatore.initial RedisClusterAscoltatore.initial "pre" 0
    JsVal.null (by decide) (by decide) (by decide) (by decide) (by decide) (by decide)
    (by decide)

/-- Claim C8 counterexample: a transport error reported on a ready AMQP
instance is wrapped and emitted, but the instance does not transition to an
errored-closed state: its lifecycle flags are unchanged. -/
theorem c8_counterexample :
    AMQPAscoltatore.connError amqpReadyState (JsCause.str "boom") =
      (amqpReadyState, [Ev.error (ErrObj.mk "boom")]) ∧
    amqpReadyState.closed = false ∧ amqpReadyState.closing = false := by decide

/-- Claim C8 (amended): a transport error reported by the AMQP connection
is surfaced to observers through the error notification with a string cause
wrapped into an error object, and nothing is raised to any caller; the
instance stays in its current lifecycle state rather than transitioning to
an errored-closed state.  Only when a close is already in flight does the
error event complete that close instead. -/
theorem c8_error_surfaced (s : AMQPAscoltatore.State) (c : JsCause) (msg : String) :
    (s.closing = false →
      AMQPAscoltatore.connError s c = (s, [Ev.error (wrapCause c)])) ∧
    (s.closing = true → s.closed = false →
      AMQPAscoltatore.connError s c = ({ s with closed := true }, [Ev.closedEv])) ∧
    wrapCause (JsCause.str msg) = ErrObj.mk msg := by
  refine ⟨?_, ?_, rfl⟩
  · intro h
    simp [AMQPAscoltatore.connError, h]
  · intro h h'
    simp [AMQPAscoltatore.connError, h, h']

/-- Witness for C8 (amended) at a ready state and a closing state. -/
theorem c8_error_surfaced_witness :
    AMQPAscoltatore.connError amqpReadyState (JsCause.str "boom") =
      (amqpReadyState, [Ev.error (wrapCause (JsCause.str "boom"))]) ∧
    AMQPAscoltatore.connError amqpClosingState (JsCause.str "boom") =
      ({ amqpClosingState with closed := true }, [Ev.closedEv]) ∧
    wrapCause (JsCause.str "boom") = ErrObj.mk "boom" :=
  ⟨(c8_error_surfaced amqpReadyState (JsCause.str "boom") "boom").1 (by decide),
   (c8_error_surfaced amqpClosingState (JsCause.str "boom") "boom").2.1 (by decide)
     (by decide),
   (c8_error_surfaced amqpReadyState (JsCause.str "boom") "boom").2.2⟩

/-- Well-formedness of a Redis cluster adapter state: the reference counter
and the local fan-out map hold at most one entry per key (JavaScript object
keys are unique). -/
def RedisClusterAscoltatore.State.WF (s : RedisClusterAscoltatore.State) : Prop :=
  (keysOf s.subs_counter.counts).Nodup ∧ (keysOf s.ascoltatores).Nodup

/-- The fan-out invariant of the Redis cluster adapter: a local fan-out
ascoltatore exists for a transport subscription key exactly when the
reference counter's count for that key is positive. -/
def RedisClusterAscoltatore.State.Inv (s : RedisClusterAscoltatore.State) : Prop :=
  ∀ k : String, (alookup s.ascoltatores k).isSome = true ↔ 0 < s.subs_counter.count k

theorem SubsCounter.count_eq_zero_of_incl_false (c : SubsCounter) (k : String)
    (h : c.incl k = false) : c.count k = 0 := by
  simpa [SubsCounter.incl] using h

/-- Claim C9: every subscribe, unsubscribe and close on the Redis cluster
adapter preserves the fan-out invariant (a local ascoltatore exists for a
key exactly when the counter's count for that key is positive) together
with well-formedness; moreover, when an unsubscribe brings the count for
its key to zero and a local ascoltatore exists for the key, that
ascoltatore is closed and removed from the map. -/
theorem c9_fanout_invariant (s : RedisClusterAscoltatore.State) (topic : String)
    (cb : Nat) (hwf : s.WF) (hinv : s.Inv) :
    ((RedisClusterAscoltatore.subscribe s topic cb).1.WF ∧
      (RedisClusterAscoltatore.subscribe s topic cb).1.Inv) ∧
    ((RedisClusterAscoltatore.unsubscribe s topic cb).1.WF ∧
      (RedisClusterAscoltatore.unsubscribe s topic cb).1.Inv) ∧
    ((RedisClusterAscoltatore.close s).1.WF ∧
      (RedisClusterAscoltatore.close s).1.Inv) ∧
    (s.closed = false →
      (s.subs_counter.remove (RedisClusterAscoltatore.subKey topic)).incl
        (RedisClusterAscoltatore.subKey topic) = false →
      (alookup s.ascoltatores (RedisClusterAscoltatore.subKey topic)).isSome = true →
      RCAct.localClose (RedisClusterAscoltatore.subKey topic) ∈
        (RedisClusterAscoltatore.unsubscribe s topic cb).2.1 ∧
      alookup (RedisClusterAscoltatore.unsubscribe s topic cb).1.ascoltatores
        (RedisClusterAscoltatore.subKey topic) = none) := by
  by_cases hc : s.closed = true
  · refine ⟨?_, ?_, ?_, ?_⟩
    · simpa [RedisClusterAscoltatore.subscribe, hc] using And.intro hwf hinv
    · simpa [RedisClusterAscoltatore.unsubscribe, hc] using And.intro hwf hinv
    · simpa [RedisClusterAscoltatore.close, hc] using And.intro hwf hinv
    · intro h
      exact absurd hc (by simp [h])
  · have hc' : s.closed = false := by simpa using hc
    refine ⟨?_, ?_, ?_, ?_⟩
    · -- subscribe preserves well-formedness and the invariant
      have hstate : ∃ v, (RedisClusterAscoltatore.subscribe s topic cb).1 =
          { s with subs_counter := s.subs_counter.add (RedisClusterAscoltatore.subKey topic),
                   ascoltatores := aset s.ascoltatores
                     (RedisClusterAscoltatore.subKey topic) v } := by
        cases halk : alookup s.ascoltatores (RedisClusterAscoltatore.subKey topic) with
        | none =>
          exact ⟨TrieAscoltatore.empty.subscribe topic cb,
            by simp [RedisClusterAscoltatore.subscribe, hc', halk]⟩
        | some a =>
          exact ⟨a.subscribe topic cb,
            by simp [RedisClusterAscoltatore.subscribe, hc', halk]⟩
      obtain ⟨v, hv⟩ := hstate
      rw [hv]
      constructor
      · exact ⟨SubsCounter.wf_add _ _ hwf.1, nodup_keysOf_aset _ _ _ hwf.2⟩
      · intro k
        by_cases hk : k = RedisClusterAscoltatore.subKey topic
        · subst hk
          simp [alookup_aset_self, SubsCounter.count_add_self]
        · have hk' : k ≠ RedisClusterAscoltatore.subKey topic := hk
          simp only [alookup_aset_other _ _ _ _ hk', SubsCounter.count_add_other _ _ _ hk']
          exact hinv k
    · -- unsubscribe preserves well-formedness and the invariant
      cases hincl : (s.subs_counter.remove (RedisClusterAscoltatore.subKey topic)).incl
          (RedisClusterAscoltatore.subKey topic) with
      | true =>
        cases halk : alookup s.ascoltatores (RedisClusterAscoltatore.subKey topic) with
        | none =>
          -- impossible: the invariant forces a zero count, but incl is true
          exfalso
          have h0 : s.subs_counter.count (RedisClusterAscoltatore.subKey topic) = 0 := by
            have := (hinv (RedisClusterAscoltatore.subKey topic))
            simp [halk] at this
            omega
          have h1 : (s.subs_counter.remove (RedisClusterAscoltatore.subKey topic)).count
              (RedisClusterAscoltatore.subKey topic) = 0 := by
            rw [SubsCounter.count_remove_self _ _ hwf.1, h0]
          simp [SubsCounter.incl, h1] at hincl
        | some a =>
          have hu : (RedisClusterAscoltatore.unsubscribe s topic cb).1 =
              { s with subs_counter := s.subs_counter.remove (RedisClusterAscoltatore.subKey topic),
                       ascoltatores := aset s.ascoltatores (RedisClusterAscoltatore.subKey topic)
                         (a.unsubscribe topic cb) } := by
            simp [RedisClusterAscoltatore.unsubscribe, hc', halk, hincl]
          rw [hu]
          constructor
          · exact ⟨SubsCounter.wf_remove _ _ hwf.1, nodup_keysOf_aset _ _ _ hwf.2⟩
          · intro k
            by_cases hk : k = RedisClusterAscoltatore.subKey topic
            · subst hk
              have hpos : 0 < (s.subs_counter.remove
                  (RedisClusterAscoltatore.subKey topic)).count
                  (RedisClusterAscoltatore.subKey topic) := by
                by_contra hle
                have : (s.subs_counter.remove (RedisClusterAscoltatore.subKey topic)).count
                    (RedisClusterAscoltatore.subKey topic) = 0 := by omega
                simp [SubsCounter.incl, this] at hincl
              simp [alookup_aset_self, hpos]
            · have hk' : k ≠ RedisClusterAscoltatore.subKey topic := hk
              simp only [alookup_aset_other _ _ _ _ hk',
                SubsCounter.count_remove_other _ _ _ hk']
              exact hinv k
      | false =>
        cases halk : alookup s.ascoltatores (RedisClusterAscoltatore.subKey topic) with
        | none =>
          have hu : (RedisClusterAscoltatore.unsubscribe s topic cb).1 =
              { s with subs_counter :=
                  s.subs_counter.remove (RedisClusterAscoltatore.subKey topic) } := by
            simp [RedisClusterAscoltatore.unsubscribe, hc', halk, hincl]
          rw [hu]
          constructor
          · exact ⟨SubsCounter.wf_remove _ _ hwf.1, hwf.2⟩
          · intro k
            by_cases hk : k = RedisClusterAscoltatore.subKey topic
            · subst hk
              have h0 := SubsCounter.count_eq_zero_of_incl_false _ _ hincl
              simp [halk, h0]
            · have hk' : k ≠ RedisClusterAscoltatore.subKey topic := hk
              simp only [SubsCounter.count_remove_other _ _ _ hk']
              exact hinv k
        | some a =>
          have hu : (RedisClusterAscoltatore.unsubscribe s topic cb).1 =
              { s with subs_counter := s.subs_counter.remove (RedisClusterAscoltatore.subKey topic),
                       ascoltatores := aerase
                         (aset s.ascoltatores (RedisClusterAscoltatore.subKey topic)
                           (a.unsubscribe topic cb))
                         (RedisClusterAscoltatore.subKey topic) } := by
            simp [RedisClusterAscoltatore.unsubscribe, hc', halk, hincl]
          rw [hu]
          have hnodup : (keysOf (aset s.ascoltatores
              (RedisClusterAscoltatore.subKey topic) (a.unsubscribe topic cb))).Nodup :=
            nodup_keysOf_aset _ _ _ hwf.2
          constructor
          · exact ⟨SubsCounter.wf_remove _ _ hwf.1, nodup_keysOf_aerase _ _ hnodup⟩
          · intro k
            by_cases hk : k = RedisClusterAscoltatore.subKey topic
            · subst hk
              have h0 := SubsCounter.count_eq_zero_of_incl_false _ _ hincl
              simp [alookup_aerase_self _ _ hnodup, h0]
            · have hk' : k ≠ RedisClusterAscoltatore.subKey topic := hk
              simp only [alookup_aerase_other _ _ _ hk', alookup_aset_other _ _ _ _ hk',
                SubsCounter.count_remove_other _ _ _ hk']
              exact hinv k
    · -- close clears everything
      have hu : (RedisClusterAscoltatore.close s).1 =
          { s with closed := true, subs_counter := SubsCounter.empty,
                   ascoltatores := [] } := by
        simp [RedisClusterAscoltatore.close, hc', SubsCounter.clear, SubsCounter.empty]
      rw [hu]
      constructor
      · exact ⟨by simp [SubsCounter.empty, keysOf], by simp [keysOf]⟩
      · intro k
        simp [alookup, SubsCounter.count, SubsCounter.empty]
    · -- the zero-reaching unsubscribe closes and removes the ascoltatore
      intro _ hincl hsome
      cases halk : alookup s.ascoltatores (RedisClusterAscoltatore.subKey topic) with
      | none => simp [halk] at hsome
      | some a =>
        have hnodup : (keysOf (aset s.ascoltatores
            (RedisClusterAscoltatore.subKey topic) (a.unsubscribe topic cb))).Nodup :=
          nodup_keysOf_aset _ _ _ hwf.2
        constructor
        · simp [RedisClusterAscoltatore.unsubscribe, hc', halk, hincl]
        · have hu : (RedisClusterAscoltatore.unsubscribe s topic cb).1.ascoltatores =
              aerase (aset s.ascoltatores (RedisClusterAscoltatore.subKey topic)
                (a.unsubscribe topic cb)) (RedisClusterAscoltatore.subKey topic) := by
            simp [RedisClusterAscoltatore.unsubscribe, hc', halk, hincl]
          rw [hu]
          exact alookup_aerase_self _ _ hnodup

/-- Witness for C9 at the freshly constructed cluster state. -/
theorem c9_fanout_invariant_witness :
    ((RedisClusterAscoltatore.subscribe RedisClusterAscoltatore.initial "hello" 0).1.WF ∧
      (RedisClusterAscoltatore.subscribe RedisClusterAscoltatore.initial "hello"
        0).1.Inv) ∧
    ((RedisClusterAscoltatore.unsubscribe RedisClusterAscoltatore.initial "hello"
        0).1.WF ∧
      (RedisClusterAscoltatore.unsubscribe RedisClusterAscoltatore.initial "hello"
        0).1.Inv) ∧
    ((RedisClusterAscoltatore.close RedisClusterAscoltatore.initial).1.WF ∧
      (RedisClusterAscoltatore.close RedisClusterAscoltatore.initial).1.Inv) ∧
    (RedisClusterAscoltatore.initial.closed = false →
      (RedisClusterAscoltatore.initial.subs_counter.remove
        (RedisClusterAscoltatore.subKey "hello")).incl
        (RedisClusterAscoltatore.subKey "hello") = false →
      (alookup RedisClusterAscoltatore.initial.ascoltatores
        (RedisClusterAscoltatore.subKey "hello")).isSome = true →
      RCAct.localClose (RedisClusterAscoltatore.subKey "hello") ∈
        (RedisClusterAscoltatore.unsubscribe RedisClusterAscoltatore.initial "hello"
          0).2.1 ∧
      alookup (RedisClusterAscoltatore.unsubscribe RedisClusterAscoltatore.initial
        "hello" 0).1.ascoltatores (RedisClusterAscoltatore.subKey "hello") = none) :=
  c9_fanout_invariant RedisClusterAscoltatore.initial "hello" 0
    (by constructor <;> simp [RedisClusterAscoltatore.initial, SubsCounter.empty, keysOf])
    (by
      intro k
      simp [RedisClusterAscoltatore.initial, SubsCounter.empty, SubsCounter.count,
        alookup])

/-- Claim C10: on the Redis cluster adapter, subscribe issues a
pattern-level subscription exactly when the topic contains one of the
configured wildcard symbols and a plain subscription otherwise;
unsubscribe, when it brings the reference count for the key to zero,
issues the matching retraction (pattern-level exactly when the topic
contains a wildcard symbol) and no retraction otherwise; and in both the
transport key is the translated topic with a trailing separator appended
unless it already ends in the separator or a wildcard. -/
theorem c10_wildcard_routing (s : RedisClusterAscoltatore.State) (topic : String)
    (cb : Nat) (h : s.closed = false) :
    (RedisClusterAscoltatore.subscribe s topic cb).2.1 =
      [if RedisClusterAscoltatore.containsWildcard topic then
        RCAct.rpsubscribe (RedisClusterAscoltatore.subKey topic)
      else RCAct.rsubscribe (RedisClusterAscoltatore.subKey topic)] ∧
    ((s.subs_counter.remove (RedisClusterAscoltatore.subKey topic)).incl
        (RedisClusterAscoltatore.subKey topic) = false →
      ((RCAct.rpunsubscribe (RedisClusterAscoltatore.subKey topic) ∈
          (RedisClusterAscoltatore.unsubscribe s topic cb).2.1 ↔
        RedisClusterAscoltatore.containsWildcard topic = true) ∧
       (RCAct.runsubscribe (RedisClusterAscoltatore.subKey topic) ∈
          (RedisClusterAscoltatore.unsubscribe s topic cb).2.1 ↔
        RedisClusterAscoltatore.containsWildcard topic = false))) ∧
    ((s.subs_counter.remove (RedisClusterAscoltatore.subKey topic)).incl
        (RedisClusterAscoltatore.subKey topic) = true →
      (RedisClusterAscoltatore.unsubscribe s topic cb).2.1 = []) ∧
    RedisClusterAscoltatore.subKey topic =
      (if endsWithStr (rcTopic topic) "/" || endsWithStr (rcTopic topic) "*" then
        rcTopic topic else rcTopic topic ++ "/") := by
  refine ⟨?_, ?_, ?_, ?_⟩
  · simp [RedisClusterAscoltatore.subscribe, h]
  · intro hincl
    cases hw : RedisClusterAscoltatore.containsWildcard topic with
    | true =>
      cases halk : alookup s.ascoltatores (RedisClusterAscoltatore.subKey topic) with
      | none => simp [RedisClusterAscoltatore.unsubscribe, h, hincl, halk, hw]
      | some a => simp [RedisClusterAscoltatore.unsubscribe, h, hincl, halk, hw]
    | false =>
      cases halk : alookup s.ascoltatores (RedisClusterAscoltatore.subKey topic) with
      | none => simp [RedisClusterAscoltatore.unsubscribe, h, hincl, halk, hw]
      | some a => simp [RedisClusterAscoltatore.unsubscribe, h, hincl, halk, hw]
  · intro hincl
    cases halk : alookup s.ascoltatores (RedisClusterAscoltatore.subKey topic) with
    | none => simp [RedisClusterAscoltatore.unsubscribe, h, hincl, halk]
    | some a => simp [RedisClusterAscoltatore.unsubscribe, h, hincl, halk]
  · rfl

/-- Witness for C10 at a plain topic on the fresh cluster state. -/
theorem c10_wildcard_routing_witness :
    (RedisClusterAscoltatore.subscribe RedisClusterAscoltatore.initial "hello" 0).2.1 =
      [if RedisClusterAscoltatore.containsWildcard "hello" then
        RCAct.rpsubscribe (RedisClusterAscoltatore.subKey "hello")
      else RCAct.rsubscribe (RedisClusterAscoltatore.subKey "hello")] ∧
    ((RedisClusterAscoltatore.initial.subs_counter.remove
        (RedisClusterAscoltatore.subKey "hello")).incl
        (RedisClusterAscoltatore.subKey "hello") = false →
      ((RCAct.rpunsubscribe (RedisClusterAscoltatore.subKey "hello") ∈
          (RedisClusterAscoltatore.unsubscribe RedisClusterAscoltatore.initial "hello"
            0).2.1 ↔
        RedisClusterAscoltatore.containsWildcard "hello" = true) ∧
       (RCAct.runsubscribe (RedisClusterAscoltatore.subKey "hello") ∈
          (RedisClusterAscoltatore.unsubscribe RedisClusterAscoltatore.initial "hello"
            0).2.1 ↔
        RedisClusterAscoltatore.containsWildcard "hello" = false))) ∧
    ((RedisClusterAscoltatore.initial.subs_counter.remove
        (RedisClusterAscoltatore.subKey "hello")).incl
        (RedisClusterAscoltatore.subKey "hello") = true →
      (RedisClusterAscoltatore.unsubscribe RedisClusterAscoltatore.initial "hello"
        0).2.1 = []) ∧
    RedisClusterAscoltatore.subKey "hello" =
      (if endsWithStr (rcTopic "hello") "/" || endsWithStr (rcTopic "hello") "*" then
        rcTopic "hello" else rcTopic "hello" ++ "/") :=
  c10_wildcard_routing RedisClusterAscoltatore.initial "hello" 0 (by decide)
